import Mathlib

/-
Verification development for the nightscout-librelink-up-go synchronization
pipeline.  The Go sources are shallowly embedded: pure helpers become Lean
functions; HTTP interaction is modelled by passing the network's answer for
the single request an operation performs as an explicit `NetResult` value,
and each operation reports whether it reached the point of issuing that
request (`networkAttempted`).  Library calls that are external to the
repository (JSON decoding, the single-format `time.ParseInLocation`) are
abstracted as function parameters; everything else is translated directly
from the source files.  Go's `panic` is modelled as a third result
constructor, since a panicking call never returns to its caller.
-/

namespace NSLL

/-- Outcome of a Go function returning `(T, error)`: a value, an error, or a
panic that aborts the process instead of returning. -/
inductive GoResult (α : Type) where
  | ok (a : α)
  | err (msg : String)
  | panicked (msg : String)
deriving DecidableEq

/-- The network's answer to the single HTTP request an operation performs:
either the transport fails (`http.Client.Do` returns an error) or a response
with a status code and a body arrives. -/
inductive NetResult where
  | unreachable (msg : String)
  | response (statusCode : Nat) (body : String)
deriving DecidableEq

/-- Result of one client operation together with the fact whether the
operation reached the point of performing its network request. -/
structure OpResult (α : Type) where
  result : GoResult α
  networkAttempted : Bool
deriving DecidableEq

/-- Go `time.Location`, restricted to the two values this program mentions:
`time.UTC` and `time.Local`. -/
inductive GoLocation where
  | utc
  | local
deriving DecidableEq

/-- Go `time.Time`: an absolute instant (nanoseconds since the Unix epoch)
carrying the fixed UTC offset, in seconds, of the location it is displayed
in.  `time.Local` is modelled as an arbitrary fixed offset. -/
structure GoTime where
  unixNanos : Int
  offsetSeconds : Int
deriving DecidableEq

/-- Go `time.Time.UnixMilli`: the instant in milliseconds since the epoch.
Go computes `unixSec()*1e3 + nsec()/1e6` with `nsec() ∈ [0, 1e9)`, which is
floor division of the total nanosecond count; `/` on `Int` is `Int.ediv`,
which is floor division for a positive divisor. -/
def GoTime.unixMilli (t : GoTime) : Int := t.unixNanos / 1000000

/-- Go `time.UnixMilli(ms)` (in the local location): Go sets
`sec = ms/1e3` and `nsec = (ms%1e3)*1e6` and normalizes, so the total
nanosecond count is exactly `ms * 1e6`. -/
def GoTime.fromUnixMilli (ms : Int) (offsetSeconds : Int) : GoTime :=
  { unixNanos := ms * 1000000, offsetSeconds := offsetSeconds }

/-- Zero-pad a day/month/hour/minute/second component to two digits. -/
def pad2 (n : Int) : String :=
  if 0 ≤ n ∧ n < 10 then "0" ++ toString n else toString n

/-- Zero-pad a year to four digits. -/
def pad4 (n : Int) : String :=
  if 0 ≤ n ∧ n < 10 then "000" ++ toString n
  else if 0 ≤ n ∧ n < 100 then "00" ++ toString n
  else if 0 ≤ n ∧ n < 1000 then "0" ++ toString n
  else toString n

/-- Civil date (year, month, day) of a day count since 1970-01-01, the
standard era-based conversion used by time libraries; all divisions are
floor divisions on nonnegative operands. -/
def civilFromDays (z0 : Int) : Int × Int × Int :=
  let z := z0 + 719468
  let era := z / 146097
  let doe := z - era * 146097
  let yoe := (doe - doe / 1460 + doe / 36524 - doe / 146096) / 365
  let y := yoe + era * 400
  let doy := doe - (365 * yoe + yoe / 4 - yoe / 100)
  let mp := (5 * doy + 2) / 153
  let d := doy - (153 * mp + 2) / 5 + 1
  let m := mp + (if mp < 10 then 3 else -9)
  (y + (if m ≤ 2 then 1 else 0), m, d)

/-- The numeric zone suffix of Go's RFC3339 layout `Z07:00`: `Z` for UTC,
otherwise a signed `hh:mm` offset. -/
def formatOffset (off : Int) : String :=
  if off = 0 then "Z"
  else if 0 ≤ off then "+" ++ pad2 (off / 3600) ++ ":" ++ pad2 (off % 3600 / 60)
  else "-" ++ pad2 ((-off) / 3600) ++ ":" ++ pad2 ((-off) % 3600 / 60)

/-- Render a whole-second instant in a zone of the given offset in Go's
`time.RFC3339` layout `2006-01-02T15:04:05Z07:00` (no fractional seconds:
the layout carries none, so formatting depends only on the whole seconds). -/
def formatRFC3339Sec (unixSeconds offsetSeconds : Int) : String :=
  let localSec := unixSeconds + offsetSeconds
  let days := localSec / 86400
  let sod := localSec % 86400
  let c := civilFromDays days
  pad4 c.1 ++ "-" ++ pad2 c.2.1 ++ "-" ++ pad2 c.2.2 ++ "T" ++
    pad2 (sod / 3600) ++ ":" ++ pad2 (sod % 3600 / 60) ++ ":" ++ pad2 (sod % 60) ++
    formatOffset offsetSeconds

/-- Go `t.Format(time.RFC3339)`: the whole seconds of the instant rendered
in the time's own location. -/
def formatRFC3339 (t : GoTime) : String :=
  formatRFC3339Sec (t.unixNanos / 1000000000) t.offsetSeconds

/-- A single-pattern parser `p fmt s loc`, modelling the standard library's
`time.ParseInLocation(fmt, s, loc)` with failure mapped to `none`.  The
standard library is not part of this repository, so it stays abstract; the
repository's own retry-in-order loop below is translated from the source. -/
abbrev GoFmtParser := String → String → GoLocation → Option GoTime

/-- The ordered format list tried by `parseLibreLinkTimestamp`
(src/unnamed/part_000 lines 318-322); the third entry is the value of the
Go constant `time.RFC3339`. -/
def timestampFormats : List String :=
  ["1/2/2006 3:04:05 PM", "01/02/2006 15:04:05", "2006-01-02T15:04:05Z07:00"]

/-- The loop body of `parseLibreLinkTimestamp`: try each format in order
against the raw string, in the local timezone, returning the first
success. -/
def tryFormats (p : GoFmtParser) (timestamp : String) : List String → Option GoTime
  | [] => none
  | f :: rest =>
    match p f timestamp GoLocation.local with
    | some t => some t
    | none => tryFormats p timestamp rest

/-- `parseLibreLinkTimestamp` (src/unnamed/part_000 lines 316-332): first
matching format wins; if none matches, the error value is returned (the Go
zero `time.Time{}` accompanying it is only the failure placeholder and is
modelled away by `Except`). -/
def parseLibreLinkTimestamp (p : GoFmtParser) (timestamp : String) : Except String GoTime :=
  match tryFormats p timestamp timestampFormats with
  | some t => Except.ok t
  | none => Except.error ("unable to parse timestamp: " ++ timestamp)

/-- `trendArrowToString` (src/unnamed/part_000 lines 334-353): Go's
`switch` on an integer, translated case by case. -/
def trendArrowToString (arrow : Int) : String :=
  if arrow = 1 then "DoubleUp"
  else if arrow = 2 then "SingleUp"
  else if arrow = 3 then "FortyFiveUp"
  else if arrow = 4 then "Flat"
  else if arrow = 5 then "FortyFiveDown"
  else if arrow = 6 then "SingleDown"
  else if arrow = 7 then "DoubleDown"
  else "Unknown"

/-- The closed enumeration of canonical trend labels, i.e. the possible
non-default outputs of `trendArrowToString` and the recognized inputs of
`convertTrendArrow`. -/
def canonicalTrendLabels : List String :=
  ["DoubleUp", "SingleUp", "FortyFiveUp", "Flat", "FortyFiveDown", "SingleDown", "DoubleDown"]

/-- `convertTrendArrow` (src/nightscout/client.go lines 104-123): Go's
`switch` on the label string, translated case by case. -/
def convertTrendArrow (arrow : String) : String :=
  if arrow = "DoubleUp" then "DoubleUp"
  else if arrow = "SingleUp" then "SingleUp"
  else if arrow = "FortyFiveUp" then "FortyFiveUp"
  else if arrow = "Flat" then "Flat"
  else if arrow = "FortyFiveDown" then "FortyFiveDown"
  else if arrow = "SingleDown" then "SingleDown"
  else if arrow = "DoubleDown" then "DoubleDown"
  else "NONE"

/-- The LibreLink Up client (src/unnamed/part_000 lines 39-46); the
`http.Client` field is replaced by the explicit `NetResult` argument of each
operation.  `authToken = ""` means no session is established. -/
structure Client where
  baseURL : String
  username : String
  password : String
  authToken : String
  accountID : String
deriving DecidableEq

/-- `Connection` (src/unnamed/part_000 lines 49-54). -/
structure Connection where
  patientID : String
  firstName : String
  lastName : String
  sensorState : Int
deriving DecidableEq

/-- `GlucoseReading` (src/unnamed/part_000 lines 57-62). -/
structure GlucoseReading where
  value : Float
  unit : String
  timestamp : GoTime
  trendArrow : String

/-- `loginResponse.Data.User` (src/unnamed/part_000 lines 73-76). -/
structure LoginUser where
  id : String
  email : String
deriving DecidableEq

/-- `loginResponse.Data.AuthTicket` (src/unnamed/part_000 lines 77-80). -/
structure AuthTicket where
  token : String
  expiresAt : Int
deriving DecidableEq

/-- The `data` object of `loginResponse` (src/unnamed/part_000 lines 72-81). -/
structure LoginData where
  user : LoginUser
  authTicket : AuthTicket
deriving DecidableEq

/-- `loginResponse` (src/unnamed/part_000 lines 70-82). -/
structure LoginResponse where
  status : Int
  data : LoginData
deriving DecidableEq

/-- One element of `connectionsResponse.Data` (src/unnamed/part_000
lines 86-94). -/
structure ConnRespItem where
  patientID : String
  firstName : String
  lastName : String
  sensorDeviceID : String
  sensorSerial : String
deriving DecidableEq

/-- `connectionsResponse` (src/unnamed/part_000 lines 84-95). -/
structure ConnectionsResponse where
  status : Int
  data : List ConnRespItem
deriving DecidableEq

/-- `glucoseResponse.Data.Connection.GlucoseMeasurement`
(src/unnamed/part_000 lines 101-106). -/
structure GlucoseMeasurement where
  value : Float
  valueInMgPerDl : Float
  trendArrow : Int
  timestamp : String

/-- The `connection` object of `glucoseResponse` (src/unnamed/part_000
lines 100-107). -/
structure GlucoseRespConnection where
  glucoseMeasurement : GlucoseMeasurement

/-- The `data` object of `glucoseResponse` (src/unnamed/part_000
lines 99-108). -/
structure GlucoseRespData where
  connection : GlucoseRespConnection

/-- `glucoseResponse` (src/unnamed/part_000 lines 97-109). -/
structure GlucoseResponse where
  status : Int
  data : GlucoseRespData

/-- `Login` (src/unnamed/part_000 lines 136-191).  `decodeLogin` abstracts
`json.Unmarshal` into `loginResponse` (`none` = decode error; the wrapped
cause text of the Go error is dropped by the model).  The final debug print
slices `c.authToken[:20]`, which in Go panics when the token is shorter
than 20 bytes, so that branch never returns. -/
def login (decodeLogin : String → Option LoginResponse) (c : Client)
    (net : NetResult) : GoResult Client :=
  match net with
  | NetResult.unreachable msg => GoResult.err ("login request failed: " ++ msg)
  | NetResult.response code body =>
    if code ≠ 200 then
      GoResult.err ("login failed with HTTP status " ++ toString code ++ ": " ++ body)
    else
      match decodeLogin body with
      | none => GoResult.err "failed to decode login response"
      | some resp =>
        if resp.status ≠ 0 then
          GoResult.err ("login failed with API status: " ++ toString resp.status)
        else
          if resp.data.authTicket.token.utf8ByteSize < 20 then
            GoResult.panicked "runtime error: slice bounds out of range"
          else
            GoResult.ok { c with authToken := resp.data.authTicket.token,
                                 accountID := resp.data.user.id }

/-- `GetConnections` (src/unnamed/part_000 lines 194-249).  `decodeConn`
abstracts `json.Unmarshal` into `connectionsResponse`.  An empty upstream
list yields the single synthetic self connection built from the account id
(`SensorState` is left at Go's zero value). -/
def getConnections (decodeConn : String → Option ConnectionsResponse) (c : Client)
    (net : NetResult) : OpResult (List Connection) :=
  if c.authToken = "" then
    { result := GoResult.err "not authenticated, call Login() first", networkAttempted := false }
  else
    match net with
    | NetResult.unreachable msg =>
      { result := GoResult.err ("connections request failed: " ++ msg), networkAttempted := true }
    | NetResult.response code body =>
      if code ≠ 200 then
        { result := GoResult.err ("connections request failed with status " ++
            toString code ++ ": " ++ body),
          networkAttempted := true }
      else
        match decodeConn body with
        | none =>
          { result := GoResult.err "failed to decode connections response",
            networkAttempted := true }
        | some resp =>
          if resp.data.length = 0 then
            { result := GoResult.ok
                [{ patientID := c.accountID, firstName := "Self", lastName := "",
                   sensorState := 0 }],
              networkAttempted := true }
          else
            { result := GoResult.ok (resp.data.map fun conn =>
                { patientID := conn.patientID, firstName := conn.firstName,
                  lastName := conn.lastName, sensorState := 0 }),
              networkAttempted := true }

/-- `GetLatestReading` (src/unnamed/part_000 lines 252-299).
`decodeGlucose` abstracts `json.Unmarshal` into `glucoseResponse`; `p` is
the abstract single-format time parser used by `parseLibreLinkTimestamp`. -/
def getLatestReading (p : GoFmtParser) (decodeGlucose : String → Option GlucoseResponse)
    (c : Client) (patientID : String) (net : NetResult) : OpResult GlucoseReading :=
  if c.authToken = "" then
    { result := GoResult.err "not authenticated, call Login() first", networkAttempted := false }
  else
    match net with
    | NetResult.unreachable msg =>
      { result := GoResult.err ("glucose request failed: " ++ msg), networkAttempted := true }
    | NetResult.response code body =>
      if code ≠ 200 then
        { result := GoResult.err ("glucose request failed with status " ++
            toString code ++ ": " ++ body),
          networkAttempted := true }
      else
        match decodeGlucose body with
        | none =>
          { result := GoResult.err "failed to decode glucose response",
            networkAttempted := true }
        | some resp =>
          let m := resp.data.connection.glucoseMeasurement
          match parseLibreLinkTimestamp p m.timestamp with
          | Except.error e =>
            { result := GoResult.err ("failed to parse timestamp: " ++ e),
              networkAttempted := true }
          | Except.ok t =>
            { result := GoResult.ok
                { value := m.valueInMgPerDl, unit := "mg/dL", timestamp := t,
                  trendArrow := trendArrowToString m.trendArrow },
              networkAttempted := true }

/-- The Nightscout client (src/nightscout/client.go lines 17-21).  It holds
no session: the API token is set at construction and sent verbatim with
every request. -/
structure NSClient where
  baseURL : String
  apiToken : String
deriving DecidableEq

/-- `Entry` (src/nightscout/client.go lines 24-31). -/
structure Entry where
  type : String
  sgv : Float
  direction : String
  device : String
  date : Int
  dateString : String

/-- Outcome of `PostGlucoseReading`, recording the normalized request URL
and the serialized entry list alongside the result (`json.Marshal` of this
entry list cannot fail and is modelled away). -/
structure PostOutcome where
  result : GoResult Unit
  networkAttempted : Bool
  url : Option String
  entries : List Entry

/-- Go `strings.HasPrefix(s, pre)`, modelled over the character sequences
of the two strings. -/
def startsWithGo (s pre : String) : Bool := pre.data.isPrefixOf s.data

/-- Go `strings.Contains(s, ":")` for the single-character needle used
here: some character of `s` is `c`. -/
def containsGo (s : String) (c : Char) : Bool := s.data.contains c

/-- The scheme-normalization step of `PostGlucoseReading`
(src/nightscout/client.go lines 65-75): add a scheme only when neither one
is present, picking `http` for base URLs containing a colon. -/
def normalizeBaseURL (baseURL : String) : String :=
  if !startsWithGo baseURL "http://" && !startsWithGo baseURL "https://" then
    if containsGo baseURL ':' then "http://" ++ baseURL else "https://" ++ baseURL
  else baseURL

/-- `PostGlucoseReading` (src/nightscout/client.go lines 45-101): a nil
reading is rejected before any request; otherwise the single entry and the
normalized URL are built and the request is issued, succeeding exactly for
2xx response statuses. -/
def postGlucoseReading (c : NSClient) (reading : Option GlucoseReading)
    (net : NetResult) : PostOutcome :=
  match reading with
  | none =>
    { result := GoResult.err "reading is nil", networkAttempted := false,
      url := none, entries := [] }
  | some r =>
    let entry : Entry :=
      { type := "sgv", sgv := r.value, direction := convertTrendArrow r.trendArrow,
        device := "nightscout-librelink-up-go", date := r.timestamp.unixMilli,
        dateString := formatRFC3339 r.timestamp }
    let url := normalizeBaseURL c.baseURL ++ "/api/v1/entries"
    let result : GoResult Unit :=
      match net with
      | NetResult.unreachable msg => GoResult.err ("request failed: " ++ msg)
      | NetResult.response code body =>
        if code < 200 || 300 ≤ code then
          GoResult.err ("request failed with status " ++ toString code ++ ": " ++ body)
        else
          GoResult.ok ()
    { result := result, networkAttempted := true, url := some url, entries := [entry] }

/-- Go `15 * time.Minute` in nanoseconds. -/
def fifteenMinutesNanos : Int := 900000000000

/-- Go `time.Since(t)` at current instant `now` (nanoseconds since epoch). -/
def timeSince (now : Int) (t : GoTime) : Int := now - t.unixNanos

/-- Outcome of one sync cycle: the returned error value, whether the post
to the sink was attempted, and whether the staleness warning was logged. -/
structure SyncOutcome where
  result : GoResult Unit
  postAttempted : Bool
  staleWarning : Bool

/-- `syncGlucoseData` (src/main.go lines 72-117).  The four collaborator
calls are abstracted as oracles for their results; `now` is the instant at
which `time.Since` is evaluated.  A reading older than fifteen minutes only
sets the warning flag — control falls through to the post. -/
def syncGlucoseData (loginR : GoResult Unit) (connR : GoResult (List Connection))
    (readR : String → GoResult (Option GlucoseReading)) (now : Int)
    (postR : GlucoseReading → GoResult Unit) : SyncOutcome :=
  match loginR with
  | GoResult.err m => { result := GoResult.err m, postAttempted := false, staleWarning := false }
  | GoResult.panicked m =>
    { result := GoResult.panicked m, postAttempted := false, staleWarning := false }
  | GoResult.ok _ =>
    match connR with
    | GoResult.err m => { result := GoResult.err m, postAttempted := false, staleWarning := false }
    | GoResult.panicked m =>
      { result := GoResult.panicked m, postAttempted := false, staleWarning := false }
    | GoResult.ok connections =>
      match connections with
      | [] => { result := GoResult.ok (), postAttempted := false, staleWarning := false }
      | conn :: _ =>
        match readR conn.patientID with
        | GoResult.err m =>
          { result := GoResult.err m, postAttempted := false, staleWarning := false }
        | GoResult.panicked m =>
          { result := GoResult.panicked m, postAttempted := false, staleWarning := false }
        | GoResult.ok none =>
          { result := GoResult.ok (), postAttempted := false, staleWarning := false }
        | GoResult.ok (some reading) =>
          let stale : Bool := decide (fifteenMinutesNanos < timeSince now reading.timestamp)
          match postR reading with
          | GoResult.err m =>
            { result := GoResult.err m, postAttempted := true, staleWarning := stale }
          | GoResult.panicked m =>
            { result := GoResult.panicked m, postAttempted := true, staleWarning := stale }
          | GoResult.ok _ =>
            { result := GoResult.ok (), postAttempted := true, staleWarning := stale }

/-
Concrete fixtures used by witness and counterexample theorems.
-/

/-- A freshly constructed client: no session (`authToken = ""`). -/
def loggedOutClient : Client :=
  { baseURL := "https://api-eu.libreview.io", username := "u", password := "p",
    authToken := "", accountID := "" }

/-- A client after a successful login for account `ACC123`. -/
def loggedInClient : Client :=
  { loggedOutClient with authToken := "sessiontoken", accountID := "ACC123" }

/-- The instant 2024-11-19T15:14:29+01:00. -/
def sampleTime : GoTime := { unixNanos := 1732025669000000000, offsetSeconds := 3600 }

/-- A sample canonical measurement. -/
def sampleReading : GlucoseReading :=
  { value := 118.0, unit := "mg/dL", timestamp := sampleTime, trendArrow := "Flat" }

/-- Sink client configured with a bare public hostname (no scheme, no colon). -/
def nsClientHost : NSClient := { baseURL := "ns.example.com", apiToken := "secret" }

/-- Sink client configured with a container-style host and port (colon, no scheme). -/
def nsClientPort : NSClient := { baseURL := "nightscout:1337", apiToken := "secret" }

/-- Sink client configured with an explicit scheme. -/
def nsClientScheme : NSClient := { baseURL := "https://ns.example.com", apiToken := "secret" }

/-- A format parser that matches no input. -/
def noFmtMatch : GoFmtParser := fun _ _ _ => none

/-- A format parser succeeding exactly on the second configured format. -/
def sndFmtOnly : GoFmtParser := fun f _ _ =>
  if f = "01/02/2006 15:04:05" then some { unixNanos := 0, offsetSeconds := 0 } else none

/-- A connections decoder always yielding an empty connection list. -/
def emptyConnDecode : String → Option ConnectionsResponse :=
  fun _ => some { status := 0, data := [] }

/-- A login response carrying a 22-byte token. -/
def loginRespLong : LoginResponse :=
  { status := 0,
    data := { user := { id := "ACC123", email := "mail" },
              authTicket := { token := "AAAAAAAAAAAAAAAAAAAAAA", expiresAt := 0 } } }

/-- A login decoder always yielding `loginRespLong`. -/
def decodeLoginLong : String → Option LoginResponse := fun _ => some loginRespLong

/-- A login response carrying a 5-byte token on an otherwise fully
successful body. -/
def loginRespShort : LoginResponse :=
  { status := 0,
    data := { user := { id := "ACC123", email := "mail" },
              authTicket := { token := "short", expiresAt := 0 } } }

/-- A login decoder always yielding `loginRespShort`. -/
def decodeLoginShort : String → Option LoginResponse := fun _ => some loginRespShort

/-- A reading oracle always yielding `sampleReading`. -/
def readROk : String → GoResult (Option GlucoseReading) :=
  fun _ => GoResult.ok (some sampleReading)

/-- A post oracle that always succeeds. -/
def postROk : GlucoseReading → GoResult Unit := fun _ => GoResult.ok ()

/-- The synthetic self connection for account `ACC123`. -/
def connSelf : Connection :=
  { patientID := "ACC123", firstName := "Self", lastName := "", sensorState := 0 }

/-- The client state after a successful login with `loginRespLong`. -/
def clientAfterLogin : Client :=
  { loggedOutClient with authToken := "AAAAAAAAAAAAAAAAAAAAAA", accountID := "ACC123" }

/-
Theorems.
-/

/-- C2: the integer-to-trend-label mapping is total: codes 1-7 map to the
fixed seven-label enumeration (injectively, hence a bijection onto it) and
every other integer, including 0 and negatives, maps to "Unknown". -/
theorem trendArrowToString_spec :
    (trendArrowToString 1 = "DoubleUp" ∧ trendArrowToString 2 = "SingleUp" ∧
     trendArrowToString 3 = "FortyFiveUp" ∧ trendArrowToString 4 = "Flat" ∧
     trendArrowToString 5 = "FortyFiveDown" ∧ trendArrowToString 6 = "SingleDown" ∧
     trendArrowToString 7 = "DoubleDown")
    ∧ (∀ a b : Int, 1 ≤ a → a ≤ 7 → 1 ≤ b → b ≤ 7 →
        trendArrowToString a = trendArrowToString b → a = b)
    ∧ (∀ a : Int, ¬(1 ≤ a ∧ a ≤ 7) → trendArrowToString a = "Unknown") := by
  refine ⟨⟨rfl, rfl, rfl, rfl, rfl, rfl, rfl⟩, ?_, ?_⟩
  · intro a b ha1 ha7 hb1 hb7
    interval_cases a <;> interval_cases b <;> decide
  · intro a ha
    have h1 : a ≠ 1 := by omega
    have h2 : a ≠ 2 := by omega
    have h3 : a ≠ 3 := by omega
    have h4 : a ≠ 4 := by omega
    have h5 : a ≠ 5 := by omega
    have h6 : a ≠ 6 := by omega
    have h7 : a ≠ 7 := by omega
    simp [trendArrowToString, h1, h2, h3, h4, h5, h6, h7]

/-- C2 witness: the mapping evaluated at representative out-of-range codes
0, -3 and 8, via the theorem. -/
theorem trendArrowToString_spec_witness :
    trendArrowToString 0 = "Unknown" ∧ trendArrowToString (-3) = "Unknown" ∧
    trendArrowToString 8 = "Unknown" :=
  ⟨trendArrowToString_spec.2.2 0 (by decide),
   trendArrowToString_spec.2.2 (-3) (by decide),
   trendArrowToString_spec.2.2 8 (by decide)⟩

/-- C3: the downstream direction mapping is the identity on the seven
canonical trend labels and "NONE" on every other string, so a forwarded
direction is never dropped, only defaulted. -/
theorem convertTrendArrow_spec (s : String) :
    (s ∈ canonicalTrendLabels → convertTrendArrow s = s)
    ∧ (s ∉ canonicalTrendLabels → convertTrendArrow s = "NONE") := by
  constructor
  · intro hs
    fin_cases hs <;> rfl
  · intro hs
    simp only [canonicalTrendLabels, List.mem_cons, List.not_mem_nil, or_false, not_or] at hs
    obtain ⟨h1, h2, h3, h4, h5, h6, h7⟩ := hs
    simp [convertTrendArrow, h1, h2, h3, h4, h5, h6, h7]

/-- C3 witness: identity on a canonical label, and "NONE" for "Unknown" and
for the empty string, via the theorem. -/
theorem convertTrendArrow_spec_witness :
    convertTrendArrow "Flat" = "Flat" ∧ convertTrendArrow "Unknown" = "NONE" ∧
    convertTrendArrow "" = "NONE" :=
  ⟨(convertTrendArrow_spec "Flat").1 (by decide),
   (convertTrendArrow_spec "Unknown").2 (by decide),
   (convertTrendArrow_spec "").2 (by decide)⟩

/-- C5: for a non-nil reading, the URL posted to is built from the base
URL with "http://" prepended when the base lacks both schemes and contains
a colon, "https://" prepended when it lacks both schemes and contains no
colon, and the base unchanged when it already carries a scheme. -/
theorem postGlucoseReading_url_scheme (c : NSClient) (r : GlucoseReading) (net : NetResult) :
    (startsWithGo c.baseURL "http://" = false → startsWithGo c.baseURL "https://" = false →
      ((containsGo c.baseURL ':' = true →
        (postGlucoseReading c (some r) net).url =
          some ("http://" ++ c.baseURL ++ "/api/v1/entries"))
       ∧ (containsGo c.baseURL ':' = false →
        (postGlucoseReading c (some r) net).url =
          some ("https://" ++ c.baseURL ++ "/api/v1/entries"))))
    ∧ ((startsWithGo c.baseURL "http://" = true ∨ startsWithGo c.baseURL "https://" = true) →
      (postGlucoseReading c (some r) net).url = some (c.baseURL ++ "/api/v1/entries")) := by
  constructor
  · intro h1 h2
    constructor <;> intro hc <;> simp [postGlucoseReading, normalizeBaseURL, h1, h2, hc]
  · intro h
    rcases h with h | h <;> simp [postGlucoseReading, normalizeBaseURL, h]

/-- C5 witness: the three end-to-end scenarios — "nightscout:1337" gets
"http://", "ns.example.com" gets "https://", and an explicit
"https://ns.example.com" is used unchanged — via the theorem. -/
theorem postGlucoseReading_url_scheme_witness :
    (postGlucoseReading nsClientPort (some sampleReading) (NetResult.response 200 "")).url =
      some "http://nightscout:1337/api/v1/entries"
    ∧ (postGlucoseReading nsClientHost (some sampleReading) (NetResult.response 200 "")).url =
      some "https://ns.example.com/api/v1/entries"
    ∧ (postGlucoseReading nsClientScheme (some sampleReading) (NetResult.response 200 "")).url =
      some "https://ns.example.com/api/v1/entries" :=
  ⟨((postGlucoseReading_url_scheme nsClientPort sampleReading
      (NetResult.response 200 "")).1 (by decide) (by decide)).1 (by decide),
   ((postGlucoseReading_url_scheme nsClientHost sampleReading
      (NetResult.response 200 "")).1 (by decide) (by decide)).2 (by decide),
   (postGlucoseReading_url_scheme nsClientScheme sampleReading
      (NetResult.response 200 "")).2 (Or.inr (by decide))⟩

/-- Truncating a nanosecond count to whole milliseconds does not change its
whole-second count: the two floor divisions compose. -/
theorem milli_trunc_same_second (n : Int) :
    (n / 1000000 * 1000000) / 1000000000 = n / 1000000000 := by
  have h1 : (n / 1000000 * 1000000) / 1000000000 = n / 1000000 / 1000 := by
    rw [mul_comm]
    have := Int.mul_ediv_mul_of_pos (n / 1000000) (1000 : Int)
      (show (0 : Int) < 1000000 by norm_num)
    norm_num at this ⊢
    exact this
  rw [h1]
  omega

/-- C9: for every non-nil measurement, the posted entry carries the epoch
milliseconds and the RFC3339 rendering of the same measurement timestamp,
and the two denote the same instant: converting the millisecond value back
to a time (in the same local zone, as Go's `time.UnixMilli` does) and
formatting it reproduces `dateString` exactly. -/
theorem postGlucoseReading_time_representations (c : NSClient) (r : GlucoseReading)
    (net : NetResult) :
    ∃ e : Entry, (postGlucoseReading c (some r) net).entries = [e]
      ∧ e.date = r.timestamp.unixMilli
      ∧ e.dateString = formatRFC3339 r.timestamp
      ∧ formatRFC3339 (GoTime.fromUnixMilli e.date r.timestamp.offsetSeconds) = e.dateString := by
  refine ⟨_, rfl, rfl, rfl, ?_⟩
  show formatRFC3339 (GoTime.fromUnixMilli r.timestamp.unixMilli r.timestamp.offsetSeconds)
      = formatRFC3339 r.timestamp
  unfold formatRFC3339 GoTime.fromUnixMilli GoTime.unixMilli
  simp only
  rw [milli_trunc_same_second]

/-- C4: when the authenticated connections call succeeds (HTTP 200, body
decodes) and the upstream list is empty, `GetConnections` returns exactly
the one synthetic connection whose patient id is the account id and whose
first name is "Self"; moreover a successful `GetConnections` never returns
an empty list. -/
theorem getConnections_self_fallback (decodeConn : String → Option ConnectionsResponse)
    (c : Client) (body : String) (resp : ConnectionsResponse)
    (hauth : c.authToken ≠ "") (hdec : decodeConn body = some resp)
    (hempty : resp.data = []) :
    getConnections decodeConn c (NetResult.response 200 body) =
      { result := GoResult.ok
          [{ patientID := c.accountID, firstName := "Self", lastName := "",
             sensorState := 0 }],
        networkAttempted := true }
    ∧ (∀ (net : NetResult) (l : List Connection),
        (getConnections decodeConn c net).result = GoResult.ok l → l ≠ []) := by
  constructor
  · simp [getConnections, hauth, hdec, hempty]
  · intro net l hl
    match net with
    | NetResult.unreachable msg => simp [getConnections, hauth] at hl
    | NetResult.response code body2 =>
      by_cases hcode : code = 200
      · subst hcode
        rcases hd2 : decodeConn body2 with _ | resp2
        · simp [getConnections, hauth, hd2] at hl
        · rcases hdata : resp2.data with _ | ⟨x, xs⟩
          · simp [getConnections, hauth, hd2, hdata] at hl
            simp [← hl]
          · simp [getConnections, hauth, hd2, hdata] at hl
            simp [← hl]
      · simp [getConnections, hauth, hcode] at hl

/-- C4 witness: end-to-end scenario 2 — empty upstream list, account id
"ACC123" — yields exactly the synthetic self connection, via the theorem. -/
theorem getConnections_self_fallback_witness :
    getConnections emptyConnDecode loggedInClient (NetResult.response 200 "ignored") =
      { result := GoResult.ok [connSelf], networkAttempted := true }
    ∧ [connSelf] ≠ ([] : List Connection) :=
  ⟨(getConnections_self_fallback emptyConnDecode loggedInClient "ignored"
      { status := 0, data := [] } (by decide) rfl rfl).1,
   (getConnections_self_fallback emptyConnDecode loggedInClient "ignored"
      { status := 0, data := [] } (by decide) rfl rfl).2
      (NetResult.response 200 "ignored") [connSelf]
      (by rw [(getConnections_self_fallback emptyConnDecode loggedInClient "ignored"
          { status := 0, data := [] } (by decide) rfl rfl).1]; rfl)⟩

/-- C1 counterexample: the claim is false for `PostGlucoseReading`.  The
sink client holds no session and performs no login, yet a post of a non-nil
reading issues its network request and here even succeeds — it neither
fails with a not-authenticated error nor avoids the network call. -/
theorem postGlucoseReading_needs_no_login :
    (postGlucoseReading nsClientHost (some sampleReading)
        (NetResult.response 200 "")).networkAttempted = true
    ∧ (postGlucoseReading nsClientHost (some sampleReading)
        (NetResult.response 200 "")).result = GoResult.ok () := by
  exact ⟨rfl, rfl⟩

/-- C1 (amended): the upstream operations `GetLatestReading` and
`GetConnections` called without a session always fail immediately with the
not-authenticated error and never attempt a network call; the sink's
`PostGlucoseReading` has no authentication precondition — for every non-nil
reading it always attempts its network call, whatever the session state. -/
theorem unauthenticated_calls (p : GoFmtParser)
    (decodeGlucose : String → Option GlucoseResponse)
    (decodeConn : String → Option ConnectionsResponse)
    (c : Client) (patientID : String) (net : NetResult)
    (nsC : NSClient) (r : GlucoseReading) (net2 : NetResult)
    (hauth : c.authToken = "") :
    getLatestReading p decodeGlucose c patientID net =
      { result := GoResult.err "not authenticated, call Login() first",
        networkAttempted := false }
    ∧ getConnections decodeConn c net =
      { result := GoResult.err "not authenticated, call Login() first",
        networkAttempted := false }
    ∧ (postGlucoseReading nsC (some r) net2).networkAttempted = true := by
  refine ⟨?_, ?_, rfl⟩ <;> simp [getLatestReading, getConnections, hauth]

/-- C1 witness: the amended statement evaluated on a freshly constructed
(never logged in) upstream client and a concrete reading, via the theorem. -/
theorem unauthenticated_calls_witness :
    getLatestReading noFmtMatch (fun _ => none) loggedOutClient "P1"
        (NetResult.response 200 "") =
      { result := GoResult.err "not authenticated, call Login() first",
        networkAttempted := false }
    ∧ getConnections (fun _ => none) loggedOutClient (NetResult.response 200 "") =
      { result := GoResult.err "not authenticated, call Login() first",
        networkAttempted := false }
    ∧ (postGlucoseReading nsClientHost (some sampleReading)
        (NetResult.response 200 "")).networkAttempted = true :=
  unauthenticated_calls noFmtMatch (fun _ => none) (fun _ => none) loggedOutClient "P1"
    (NetResult.response 200 "") nsClientHost sampleReading (NetResult.response 200 "") rfl

/-- The failure condition of `Login`: the transport failed, or the HTTP
status is not 200, or the body does not decode, or the decoded body's
embedded status field is non-zero. -/
def loginFailCond (decodeLogin : String → Option LoginResponse) (net : NetResult) : Prop :=
  match net with
  | NetResult.unreachable _ => True
  | NetResult.response code body =>
    code ≠ 200 ∨
      match decodeLogin body with
      | none => True
      | some resp => resp.status ≠ 0

/-- C7: `Login` returns an error exactly when the endpoint is unreachable,
the HTTP status is non-success, the body does not parse, or the embedded
status field is non-zero; and whenever it returns successfully, the new
session state carries the returned bearer token and account identifier
(other client fields unchanged). -/
theorem login_spec (decodeLogin : String → Option LoginResponse) (c : Client)
    (net : NetResult) :
    ((∃ msg, login decodeLogin c net = GoResult.err msg) ↔ loginFailCond decodeLogin net)
    ∧ (∀ c', login decodeLogin c net = GoResult.ok c' →
        ∃ body resp, net = NetResult.response 200 body ∧ decodeLogin body = some resp ∧
          resp.status = 0 ∧
          c'.authToken = resp.data.authTicket.token ∧
          c'.accountID = resp.data.user.id ∧
          c'.baseURL = c.baseURL ∧ c'.username = c.username ∧ c'.password = c.password) := by
  match net with
  | NetResult.unreachable msg =>
    exact ⟨⟨fun _ => trivial, fun _ => ⟨"login request failed: " ++ msg, rfl⟩⟩,
      fun c' h => by simp [login] at h⟩
  | NetResult.response code body =>
    by_cases hcode : code = 200
    · subst hcode
      rcases hd : decodeLogin body with _ | resp
      · refine ⟨⟨fun _ => Or.inr (by rw [hd]; trivial),
          fun _ => ⟨"failed to decode login response", by simp [login, hd]⟩⟩,
          fun c' h => by simp [login, hd] at h⟩
      · by_cases hst : resp.status = 0
        · constructor
          · constructor
            · intro ⟨msg, hmsg⟩
              by_cases htok : resp.data.authTicket.token.utf8ByteSize < 20 <;>
                simp [login, hd, hst, htok] at hmsg
            · intro hcond
              rcases hcond with hcond | hcond
              · exact absurd rfl hcond
              · rw [hd] at hcond
                exact absurd hst hcond
          · intro c' h
            by_cases htok : resp.data.authTicket.token.utf8ByteSize < 20
            · simp [login, hd, hst, htok] at h
            · simp [login, hd, hst, htok] at h
              exact ⟨body, resp, rfl, hd, hst, by rw [← h], by rw [← h], by rw [← h],
                by rw [← h], by rw [← h]⟩
        · refine ⟨⟨fun _ => Or.inr (by rw [hd]; exact hst),
            fun _ => ⟨"login failed with API status: " ++ toString resp.status,
              by simp [login, hd, hst]⟩⟩,
            fun c' h => by simp [login, hd, hst] at h⟩
    · refine ⟨⟨fun _ => Or.inl hcode,
        fun _ => ⟨"login failed with HTTP status " ++ toString code ++ ": " ++ body,
          by simp [login, hcode]⟩⟩,
        fun c' h => by simp [login, hcode] at h⟩

/-- C7 witness: a non-200 response satisfies the failure condition, and a
fully successful response yields a client holding the returned token and
account id, via the theorem. -/
theorem login_spec_witness :
    loginFailCond decodeLoginLong (NetResult.response 404 "denied")
    ∧ (∃ body resp, (NetResult.response 200 "body") = NetResult.response 200 body ∧
        decodeLoginLong body = some resp ∧ resp.status = 0 ∧
        clientAfterLogin.authToken = resp.data.authTicket.token ∧
        clientAfterLogin.accountID = resp.data.user.id ∧
        clientAfterLogin.baseURL = loggedOutClient.baseURL ∧
        clientAfterLogin.username = loggedOutClient.username ∧
        clientAfterLogin.password = loggedOutClient.password) :=
  ⟨(login_spec decodeLoginLong loggedOutClient (NetResult.response 404 "denied")).1.mp
      ⟨"login failed with HTTP status 404: denied", by decide⟩,
   (login_spec decodeLoginLong loggedOutClient (NetResult.response 200 "body")).2
      clientAfterLogin (by decide)⟩

/-- C10: an HTTP 200 login response with embedded status zero but a token
shorter than 20 bytes drives the success-path debug slice `authToken[:20]`
into a panic instead of a normal return; consequently `Login` returns
successfully only when the recorded token is at least 20 bytes long. -/
theorem login_short_token_panics (decodeLogin : String → Option LoginResponse)
    (c : Client) (body : String) (resp : LoginResponse)
    (hdec : decodeLogin body = some resp) (hst : resp.status = 0)
    (hshort : resp.data.authTicket.token.utf8ByteSize < 20) :
    login decodeLogin c (NetResult.response 200 body) =
      GoResult.panicked "runtime error: slice bounds out of range"
    ∧ (∀ (d2 : String → Option LoginResponse) (c2 : Client) (net : NetResult) (c2' : Client),
        login d2 c2 net = GoResult.ok c2' → 20 ≤ c2'.authToken.utf8ByteSize) := by
  constructor
  · simp [login, hdec, hst, hshort]
  · intro d2 c2 net c2' h
    match net with
    | NetResult.unreachable msg => simp [login] at h
    | NetResult.response code body2 =>
      by_cases hcode : code = 200
      · subst hcode
        rcases hd2 : d2 body2 with _ | resp2
        · simp [login, hd2] at h
        · by_cases hst2 : resp2.status = 0
          · by_cases htok : resp2.data.authTicket.token.utf8ByteSize < 20
            · simp [login, hd2, hst2, htok] at h
            · simp [login, hd2, hst2, htok] at h
              rw [← h]
              show 20 ≤ resp2.data.authTicket.token.utf8ByteSize
              omega
          · simp [login, hd2, hst2] at h
      · simp [login, hcode] at h

/-- C10 witness: a decoder returning a 5-byte token on an otherwise fully
successful 200 response makes `Login` panic, and a successful login always
carries a token of at least 20 bytes, via the theorem. -/
theorem login_short_token_panics_witness :
    login decodeLoginShort loggedOutClient (NetResult.response 200 "body") =
      GoResult.panicked "runtime error: slice bounds out of range"
    ∧ (∀ c2', login decodeLoginLong loggedOutClient (NetResult.response 200 "body") =
        GoResult.ok c2' → 20 ≤ c2'.authToken.utf8ByteSize) :=
  ⟨(login_short_token_panics decodeLoginShort loggedOutClient "body" loginRespShort
      rfl rfl (by decide)).1,
   fun c2' h =>
    (login_short_token_panics decodeLoginShort loggedOutClient "body" loginRespShort
      rfl rfl (by decide)).2 decodeLoginLong loggedOutClient (NetResult.response 200 "body")
      c2' h⟩

/-- C8: in every cycle where a measurement is successfully fetched, the
post to the sink is attempted for every possible current instant — in
particular also when the reading is more than fifteen minutes old; that
staleness only determines whether the warning is logged. -/
theorem syncGlucoseData_staleness_advisory (conn : Connection) (connRest : List Connection)
    (readR : String → GoResult (Option GlucoseReading)) (now : Int)
    (postR : GlucoseReading → GoResult Unit) (reading : GlucoseReading)
    (hread : readR conn.patientID = GoResult.ok (some reading)) :
    (syncGlucoseData (GoResult.ok ()) (GoResult.ok (conn :: connRest))
        readR now postR).postAttempted = true
    ∧ (syncGlucoseData (GoResult.ok ()) (GoResult.ok (conn :: connRest))
        readR now postR).staleWarning
      = decide (fifteenMinutesNanos < timeSince now reading.timestamp) := by
  rcases hp : postR reading with _ | m | m <;> constructor <;>
    simp [syncGlucoseData, hread, hp]

/-- C8 witness: a reading exactly fifteen minutes and one nanosecond old is
still posted, with the staleness warning set, via the theorem. -/
theorem syncGlucoseData_staleness_advisory_witness :
    (syncGlucoseData (GoResult.ok ()) (GoResult.ok [connSelf]) readROk
        1732026569000000001 postROk).postAttempted = true
    ∧ (syncGlucoseData (GoResult.ok ()) (GoResult.ok [connSelf]) readROk
        1732026569000000001 postROk).staleWarning = true :=
  ⟨(syncGlucoseData_staleness_advisory connSelf [] readROk 1732026569000000001 postROk
      sampleReading rfl).1,
   ((syncGlucoseData_staleness_advisory connSelf [] readROk 1732026569000000001 postROk
      sampleReading rfl).2).trans (by decide)⟩

/-- C6: timestamp parsing is a pure function of the input string (hence
deterministic); it fails with the timestamp error exactly when none of the
three configured formats matches (so an unmatched input never yields a
success value, zero time or otherwise); and a success is exactly the value
of the first matching format in the configured order, interpreted in the
local timezone. -/
theorem parseLibreLinkTimestamp_spec (p : GoFmtParser) (ts : String) :
    (parseLibreLinkTimestamp p ts = Except.error ("unable to parse timestamp: " ++ ts)
      ↔ ∀ f ∈ timestampFormats, p f ts GoLocation.local = none)
    ∧ (∀ t, parseLibreLinkTimestamp p ts = Except.ok t ↔
        ∃ i : Fin timestampFormats.length,
          p (timestampFormats.get i) ts GoLocation.local = some t ∧
          ∀ j : Fin timestampFormats.length, j < i →
            p (timestampFormats.get j) ts GoLocation.local = none) := by
  rcases h1 : p "1/2/2006 3:04:05 PM" ts GoLocation.local with _ | t1
  · rcases h2 : p "01/02/2006 15:04:05" ts GoLocation.local with _ | t2
    · rcases h3 : p "2006-01-02T15:04:05Z07:00" ts GoLocation.local with _ | t3
      · constructor
        · constructor
          · intro _ f hf
            fin_cases hf
            · exact h1
            · exact h2
            · exact h3
          · intro _
            simp [parseLibreLinkTimestamp, tryFormats, timestampFormats, h1, h2, h3]
        · intro t
          constructor
          · intro h
            simp [parseLibreLinkTimestamp, tryFormats, timestampFormats, h1, h2, h3] at h
          · intro ⟨i, hi, _⟩
            fin_cases i <;> simp [timestampFormats] at hi <;>
              simp [h1, h2, h3] at hi
      · constructor
        · constructor
          · intro h
            simp [parseLibreLinkTimestamp, tryFormats, timestampFormats, h1, h2, h3] at h
          · intro hall
            have := hall "2006-01-02T15:04:05Z07:00" (by simp [timestampFormats])
            rw [h3] at this
            exact absurd this (by simp)
        · intro t
          constructor
          · intro h
            simp [parseLibreLinkTimestamp, tryFormats, timestampFormats, h1, h2, h3] at h
            refine ⟨⟨2, by simp [timestampFormats]⟩, ?_, ?_⟩
            · simpa [timestampFormats, h] using h3
            · intro j hj
              fin_cases j
              · exact h1
              · exact h2
              · exact absurd hj (by simp [Fin.lt_def])
          · intro ⟨i, hi, hj⟩
            fin_cases i
            · simp [timestampFormats] at hi
              simp [h1] at hi
            · simp [timestampFormats] at hi
              simp [h2] at hi
            · simp [timestampFormats] at hi
              rw [h3] at hi
              simp at hi
              simp [parseLibreLinkTimestamp, tryFormats, timestampFormats, h1, h2, h3, hi]
    · constructor
      · constructor
        · intro h
          simp [parseLibreLinkTimestamp, tryFormats, timestampFormats, h1, h2] at h
        · intro hall
          have := hall "01/02/2006 15:04:05" (by simp [timestampFormats])
          rw [h2] at this
          exact absurd this (by simp)
      · intro t
        constructor
        · intro h
          simp [parseLibreLinkTimestamp, tryFormats, timestampFormats, h1, h2] at h
          refine ⟨⟨1, by simp [timestampFormats]⟩, ?_, ?_⟩
          · simpa [timestampFormats, h] using h2
          · intro j hj
            fin_cases j
            · exact h1
            · exact absurd hj (by simp [Fin.lt_def])
            · exact absurd hj (by simp [Fin.lt_def])
        · intro ⟨i, hi, hj⟩
          fin_cases i
          · simp [timestampFormats] at hi
            simp [h1] at hi
          · simp [timestampFormats] at hi
            rw [h2] at hi
            simp at hi
            simp [parseLibreLinkTimestamp, tryFormats, timestampFormats, h1, h2, hi]
          · have := hj ⟨1, by simp [timestampFormats]⟩ (by simp [Fin.lt_def])
            simp [timestampFormats] at this
            simp [h2] at this
  · constructor
    · constructor
      · intro h
        simp [parseLibreLinkTimestamp, tryFormats, timestampFormats, h1] at h
      · intro hall
        have := hall "1/2/2006 3:04:05 PM" (by simp [timestampFormats])
        rw [h1] at this
        exact absurd this (by simp)
    · intro t
      constructor
      · intro h
        simp [parseLibreLinkTimestamp, tryFormats, timestampFormats, h1] at h
        refine ⟨⟨0, by simp [timestampFormats]⟩, ?_, ?_⟩
        · simpa [timestampFormats, h] using h1
        · intro j hj
          exact absurd hj (by simp [Fin.lt_def])
      · intro ⟨i, hi, hj⟩
        fin_cases i
        · simp [timestampFormats] at hi
          rw [h1] at hi
          simp at hi
          simp [parseLibreLinkTimestamp, tryFormats, timestampFormats, h1, hi]
        · have := hj ⟨0, by simp [timestampFormats]⟩ (by simp [Fin.lt_def])
          simp [timestampFormats] at this
          simp [h1] at this
        · have := hj ⟨0, by simp [timestampFormats]⟩ (by simp [Fin.lt_def])
          simp [timestampFormats] at this
          simp [h1] at this

/-- C6 witness: a parser matching nothing makes parsing fail with the
timestamp error, and a parser matching exactly the second configured format
shows the first-match characterization, via the theorem. -/
theorem parseLibreLinkTimestamp_spec_witness :
    parseLibreLinkTimestamp noFmtMatch "nonsense" =
      Except.error ("unable to parse timestamp: " ++ "nonsense")
    ∧ (∃ i : Fin timestampFormats.length,
        sndFmtOnly (timestampFormats.get i) "11/19/2024 15:14:29" GoLocation.local =
          some { unixNanos := 0, offsetSeconds := 0 } ∧
        ∀ j : Fin timestampFormats.length, j < i →
          sndFmtOnly (timestampFormats.get j) "11/19/2024 15:14:29" GoLocation.local = none) :=
  ⟨(parseLibreLinkTimestamp_spec noFmtMatch "nonsense").1.mpr (fun _ _ => rfl),
   ((parseLibreLinkTimestamp_spec sndFmtOnly "11/19/2024 15:14:29").2
      { unixNanos := 0, offsetSeconds := 0 }).mp rfl⟩

end NSLL
